import Mathlib

/-
Verification of the Go-Sybase bridge (host-side Go supervisor/router plus the
worker-side Java transaction pool) against its natural-language specification.

The development shallowly embeds the relevant source functions:
  - src/internal/sybase.go, src/unnamed/part_003 (connect / disconnect /
    newConnectionInstance; the two revisions are line-for-line identical in
    the modelled logic),
  - src/unnamed/part_002 (the Raw execute path),
  - src/helpers.go and src/unnamed/part_004 (handleResponses, handleErrors,
    convertToRawResponse, checkFileExistence),
  - src/unnamed/part_001 (ConnectionPoolTransaction: getConnection,
    releaseConnection),
  - src/rows.go (Rows.Next, Rows.Scan, assignRowValue).

Effects are made explicit: process/file-system facts become boolean oracles,
Go channels become an explicit channel-state type, JDBC connections become
numeric identifiers handed out by a counter, and fallible operations return
Except or Option (with Option.none standing for a Go runtime panic where the
source indexes unconditionally).
-/

/-- Models strings.HasPrefix from the Go standard library (byte-wise prefix
test), used by handleResponses, handleErrors and connect. -/
def goHasPrefix (s pre : String) : Bool :=
  pre.data.isPrefixOf s.data

/-- Scalar values as they appear in a decoded result row (Go map values of
type any after JSON decoding: null, string, number, boolean). -/
inductive SqlValue where
  | null
  | str (s : String)
  | num (n : Int)
  | boolean (b : Bool)
deriving DecidableEq

/-- One result row: a column-name-to-value mapping as decoded from JSON
(Go map with string keys, iterated in some order). -/
abbrev Row := List (String × SqlValue)

/-- One element of the untyped Result slice of a QueryResponse (Go type any).
convertToRawResponse re-marshals each element and unmarshals it into a slice
of maps; that round trip succeeds exactly when the element is an array of
objects (constructor sets) and fails otherwise (constructor other). -/
inductive ResultItem where
  | sets (rows : List Row)
  | other
deriving DecidableEq

/-- QueryResponse from src/internal/models.go lines 79-83: msgId, the untyped
result slice, and the error text (empty string when absent, as in Go). -/
structure QueryResponse where
  msgId : Nat
  result : List ResultItem
  error : String
deriving DecidableEq

/-- The Go zero value of QueryResponse, produced by receiving from a closed
channel: zero msgId, nil result slice, empty error string. -/
def QueryResponse.zero : QueryResponse :=
  { msgId := 0, result := [], error := "" }

/-- RawResponse from src/internal/models.go lines 68-70. -/
structure RawResponse where
  results : List Row
deriving DecidableEq

/-- convertToRawResponse from src/helpers.go lines 121-137 (identical in
src/unnamed/part_004 lines 122-138): each element of the result slice is
re-encoded and decoded as a slice of row maps, and all row slices are
appended in order; the first element that is not an array of objects makes
the whole conversion fail. -/
def convertToRawResponse : List ResultItem → Except String RawResponse
  | [] => Except.ok { results := [] }
  | ResultItem.other :: _ => Except.error "error al parsear el dato"
  | ResultItem.sets rs :: rest =>
    match convertToRawResponse rest with
    | Except.ok r => Except.ok { results := rs ++ r.results }
    | Except.error e => Except.error e

/-- State of one waiter's buffered (capacity 1) response channel: still empty,
or holding an undelivered response. -/
inductive ChanState where
  | empty
  | holding (resp : QueryResponse)
deriving DecidableEq

/-- The event that unblocks a receive on a waiter's channel: a response was
delivered into the channel, or the channel was closed while empty. -/
inductive ChanEvent where
  | delivered (resp : QueryResponse)
  | closedCh
deriving DecidableEq

/-- Effect, on the blocked receiver, of Go's close(ch) in disconnect
(src/internal/sybase.go lines 138-140): closing a buffered channel that still
holds a response lets the receiver drain that response; closing an empty
channel makes the receive return the zero value. -/
def closeChan : ChanState → ChanEvent
  | ChanState.empty => ChanEvent.closedCh
  | ChanState.holding r => ChanEvent.delivered r

/-- The value produced by the blocking receive resp := <-respChan in Raw
(src/unnamed/part_002 line 216), as a function of the event that unblocked
it: the delivered response, or the Go zero value after a close. -/
def rawAwait : ChanEvent → QueryResponse
  | ChanEvent.delivered r => r
  | ChanEvent.closedCh => QueryResponse.zero

/-- Post-receive processing of Raw (src/unnamed/part_002 lines 218-228): a
response with an empty result slice and non-empty error text becomes an
error; anything else goes through convertToRawResponse. -/
def rawFinish (resp : QueryResponse) : Except String RawResponse :=
  if resp.result.length = 0 ∧ resp.error ≠ "" then Except.error resp.error
  else convertToRawResponse resp.result

/-- Host-side bridge state relevant to the claims: the connected flag, the
query counter, and the waiter table mapping msgId to its response channel
(Sybase struct, src/internal/models.go lines 40-46). -/
structure SybaseState where
  connected : Bool
  queryCount : Nat
  currentQueries : List (Nat × ChanState)
deriving DecidableEq

/-- disconnect from src/internal/sybase.go lines 112-142 (Disconnect in
src/unnamed/part_003 lines 112-155 differs only in error plumbing for stream
closes): early return when not connected; otherwise clear the connected flag,
close the streams and kill the process (outside this state), close every
waiter channel, and reset the waiter table to empty. -/
def disconnect (s : SybaseState) : SybaseState :=
  if s.connected = false then s
  else { s with connected := false, currentQueries := [] }

/-- The close events disconnect delivers to the blocked receivers: one per
entry of the waiter table (the for-range loop at src/internal/sybase.go
lines 138-140), none when disconnect early-returns. -/
def disconnectEvents (s : SybaseState) : List (Nat × ChanEvent) :=
  if s.connected = false then []
  else s.currentQueries.map (fun q => (q.1, closeChan q.2))

/-- Send phase of Raw (src/unnamed/part_002 lines 176-210): fail when not
connected; otherwise increment the query counter, register a fresh empty
channel under the new msgId, and write the request line (writeOk is the
outcome of the Fprintf to the worker's stdin; JSON-encoding a request with a
string SQL field cannot fail). On a write failure the deferred delete removes
the entry again before Raw returns. -/
def rawSend (s : SybaseState) (writeOk : Bool) : Except String (Nat × SybaseState) :=
  if s.connected = false then Except.error "database isn't connected"
  else
    let msgID := s.queryCount + 1
    if writeOk then
      Except.ok (msgID,
        { s with queryCount := msgID,
                 currentQueries := (msgID, ChanState.empty) :: s.currentQueries })
    else Except.error "failed to send query"

/-- Outcome of the blocking receive in Raw observed at a time bound. The
trace lists, in chronological order, the timed events on this call's channel
(a delivered response or a teardown close). The receive is a bare channel
receive with no select and no timer (src/unnamed/part_002 line 216), so the
call resolves exactly at the first event; with no event it stays blocked at
every observation time. -/
def rawOutcomeBy (trace : List (Nat × ChanEvent)) (deadline : Nat) :
    Option (Except String RawResponse) :=
  match trace with
  | [] => none
  | e :: _ =>
    if e.1 ≤ deadline then some (rawFinish (rawAwait e.2)) else none

/-- Which branch of the handleResponses loop body fired for one stdout line. -/
inductive RouteAction where
  | diagLogged
  | parseFailedDropped
  | delivered (msgId : Nat)
  | droppedNoWaiter
deriving DecidableEq

/-- Lookup in the waiter table (Go map indexing currentQueries of resp.MsgID). -/
def lookupChan : List (Nat × ChanState) → Nat → Option ChanState
  | [], _ => none
  | q :: rest, id => if q.1 = id then some q.2 else lookupChan rest id

/-- The channel send ch <- resp of handleResponses (src/helpers.go line 65):
the matching waiter's capacity-1 channel receives the response. The model
replaces the entry's channel state by holding resp; under the protocol
invariant that at most one response line per msgId arrives, the channel is
empty at this point, so the send does not block the router. -/
def deliverResponse : List (Nat × ChanState) → QueryResponse → List (Nat × ChanState)
  | [], _ => []
  | q :: rest, resp =>
    if q.1 = resp.msgId then (q.1, ChanState.holding resp) :: rest
    else q :: deliverResponse rest resp

/-- Body of the handleResponses loop for one stdout line, from src/helpers.go
lines 39-69 (src/unnamed/part_004 lines 41-71 checks only the JAVALOG prefix
in the logging branch; the control flow is otherwise identical). decode is
the behaviour of json.Unmarshal into a QueryResponse on this line: none when
the line is not valid JSON for a response. Only when the logs flag is set is
the line first tested for a diagnostic prefix; otherwise it goes straight to
the JSON decoder, and a line that fails to decode is logged and dropped.
A decoded response is sent to the registered waiter, if any. -/
def handleResponsesLine (logs : Bool) (decode : String → Option QueryResponse)
    (line : String) (qs : List (Nat × ChanState)) :
    RouteAction × List (Nat × ChanState) :=
  if logs && (goHasPrefix line "JAVALOG:" || goHasPrefix line "JAVAERROR:") then
    (RouteAction.diagLogged, qs)
  else
    match decode line with
    | none => (RouteAction.parseFailedDropped, qs)
    | some resp =>
      match lookupChan qs resp.msgId with
      | none => (RouteAction.droppedNoWaiter, qs)
      | some _ => (RouteAction.delivered resp.msgId, deliverResponse qs resp)

/-- What the handleErrors loop body does with one stderr line. -/
inductive ErrResult where
  | logged
  | fatalDisconnect
deriving DecidableEq

/-- Body of the handleErrors loop for one stderr line, from
src/unnamed/part_004 lines 19-39: lines with the JAVAERROR: or
JAVAEXCEPTION: prefix are printed as logs and the loop continues; any other
line is printed as a database error and Disconnect is invoked. -/
def handleErrorsLine (line : String) : ErrResult :=
  if goHasPrefix line "JAVAERROR:" || goHasPrefix line "JAVAEXCEPTION:" then
    ErrResult.logged
  else ErrResult.fatalDisconnect

/-- Body of the handleErrors loop in the gosybase revision, src/helpers.go
lines 19-37: only the JAVAERROR: prefix is recognized there. -/
def handleErrorsLineLegacy (line : String) : ErrResult :=
  if goHasPrefix line "JAVAERROR:" then ErrResult.logged
  else ErrResult.fatalDisconnect

/-- The no-logging startup handshake inside connect, src/internal/sybase.go
lines 86-98: with logging enabled there is no read at all; otherwise one
line is read from the worker's stdout (error when the stream ends first) and
must carry the startup-success prefix. -/
def connectHandshake (logs : Bool) (stdoutLines : List String) : Except String Unit :=
  if logs then Except.ok ()
  else
    match stdoutLines with
    | [] => Except.error "failed to read connection status"
    | l :: _ =>
      if goHasPrefix l "JAVALOG: Connection created" then Except.ok ()
      else Except.error ("connection failed: " ++ l)

/-- connect from src/internal/sybase.go lines 44-110, state part: error when
already connected; startOk folds the four spawn-failure modes (the three
pipe setup errors and cmd.Start); then the handshake runs, and only on its
success is the connected flag set. stdoutLines is the worker's stdout stream
as a list of lines, logs the configured logging flag. -/
def connect (s : SybaseState) (startOk logs : Bool) (stdoutLines : List String) :
    Except String SybaseState :=
  if s.connected then Except.error "already connected"
  else if startOk = false then Except.error "error starting process"
  else
    match connectHandshake logs stdoutLines with
    | Except.error e => Except.error e
    | Except.ok _ => Except.ok { s with connected := true }

/-- Config from src/internal/models.go lines 49-66. The Timeout duration
field exists in the source but is never read anywhere in the repository. -/
structure Config where
  host : String
  port : String
  database : String
  username : String
  password : String
  minConnections : Int
  maxConnections : Int
  connectionTimeout : Int
  idleTimeout : Int
  keepaliveTime : Int
  maxLifetime : Int
  transactionConnections : Int
  logs : Bool
  tdsLink : String
  tdsProperties : String
  timeout : Int
deriving DecidableEq

/-- The scalar fields of the sybase struct populated by newConnectionInstance
(src/internal/models.go lines 12-47). -/
structure Sybase where
  host : String
  port : String
  database : String
  username : String
  password : String
  minConnections : Int
  maxConnections : Int
  connectionTimeout : Int
  idleTimeout : Int
  keepaliveTime : Int
  maxLifetime : Int
  transactionConnections : Int
  logs : Bool
  tdsJarPath : String
  config : Config
deriving DecidableEq

/-- newConnectionInstance from src/internal/sybase.go lines 12-42 (identical
to NewConnectionInstance in src/unnamed/part_003 lines 12-42): when
config.tdsLink is empty the jar is looked up on disk (foundJarPath is the
result of that search, none when it fails); the struct is then populated
field by field from the config. Note line 35 of the source: the maxLifetime
field is assigned config.KeepaliveTime, and Config.MaxLifetime is never
read. -/
def newConnectionInstance (config : Config) (foundJarPath : Option String) :
    Except String Sybase :=
  match (if config.tdsLink ≠ "" then some config.tdsLink else foundJarPath) with
  | none => Except.error "couldn't be founded TDSLink directory"
  | some jar =>
    Except.ok
      { host := config.host
        port := config.port
        database := config.database
        username := config.username
        password := config.password
        minConnections := config.minConnections
        maxConnections := config.maxConnections
        connectionTimeout := config.connectionTimeout
        idleTimeout := config.idleTimeout
        keepaliveTime := config.keepaliveTime
        maxLifetime := config.keepaliveTime
        transactionConnections := config.transactionConnections
        logs := config.logs
        tdsJarPath := jar
        config := config }

/-- checkFileExistence from src/tdsLinkFinder.go lines 35-38 (identical in
src/unnamed/part_004 lines 140-143). The source runs os.Stat(path) and
returns os.IsNotExist(err); with fs the file-exists oracle of the host file
system, os.Stat yields an IsNotExist error exactly when the file is absent,
so the function returns the negation of existence. -/
def checkFileExistence (fs : String → Bool) (path : String) : Bool :=
  !(fs path)

/-- strconv.FormatBool. -/
def formatBool (b : Bool) : String :=
  if b then "true" else "false"

/-- The program arguments (after the jar path) with which connect launches
the worker, src/internal/sybase.go lines 52-59: the single properties-file
path when tdsProperties is non-empty and checkFileExistence accepts it,
otherwise the explicit ordered scalar list. strconv.Itoa is Int.toString. -/
def connectWorkerArgs (s : Sybase) (fs : String → Bool) : List String :=
  if s.config.tdsProperties ≠ "" && checkFileExistence fs s.config.tdsProperties then
    [s.config.tdsProperties]
  else
    [s.host, s.port, s.database, s.username, s.password, formatBool s.logs,
     toString s.minConnections, toString s.maxConnections,
     toString s.connectionTimeout, toString s.idleTimeout,
     toString s.keepaliveTime, toString s.maxLifetime,
     toString s.transactionConnections]

/-- State of the worker-side transaction pool (ConnectionPoolTransaction,
src/unnamed/part_001 lines 31-135). JDBC connections are modelled as numeric
identifiers handed out by the counter nextConnectionId (DriverManager
returns a fresh connection object on every call); closedConnections records
which identifiers have been closed (Connection.isClosed). -/
structure ConnectionPoolTransaction where
  availableConnections : List Nat
  activeTransactionConnections : List (Nat × Nat)
  maxTransactionConnections : Nat
  closedConnections : List Nat
  nextConnectionId : Nat
deriving DecidableEq

/-- HashMap.get on the transaction map (transactionId to connection). -/
def lookupActive : List (Nat × Nat) → Nat → Option Nat
  | [], _ => none
  | q :: rest, tid => if q.1 = tid then some q.2 else lookupActive rest tid

/-- HashMap.remove on the transaction map: drops the entry for the id. -/
def eraseActive : List (Nat × Nat) → Nat → List (Nat × Nat)
  | [], _ => []
  | q :: rest, tid => if q.1 = tid then rest else q :: eraseActive rest tid

/-- getConnection from src/unnamed/part_001 lines 144-155: return the mapped
connection unchanged if the id is mapped; otherwise take the head of the
available list if non-empty, else create a new connection (createOk is the
outcome of that DriverManager call; none models the propagated
SQLException); in either branch register the mapping. -/
def getConnection (p : ConnectionPoolTransaction) (transactionId : Nat)
    (createOk : Bool) : Option Nat × ConnectionPoolTransaction :=
  match lookupActive p.activeTransactionConnections transactionId with
  | some c => (some c, p)
  | none =>
    match p.availableConnections with
    | c :: rest =>
      (some c,
       { p with availableConnections := rest,
                activeTransactionConnections :=
                  (transactionId, c) :: p.activeTransactionConnections })
    | [] =>
      if createOk then
        (some p.nextConnectionId,
         { p with nextConnectionId := p.nextConnectionId + 1,
                  activeTransactionConnections :=
                    (transactionId, p.nextConnectionId) ::
                      p.activeTransactionConnections })
      else (none, p)

/-- releaseConnection from src/unnamed/part_001 lines 163-183: remove the
mapping (early return when absent); close the connection unless already
closed (closeOk is the outcome of Connection.close; a failed close marks
nothing closed and the SQLException propagates after the finally block); the
finally block replenishes: when the available list is shorter than the
configured pool size, one freshly created connection is appended, and a
creation failure (createOk false) is only logged. The Bool result is true
when the call returned without an exception; the returned state reflects all
mutations even on the exception path. -/
def releaseConnection (p : ConnectionPoolTransaction) (transactionId : Nat)
    (closeOk createOk : Bool) : Bool × ConnectionPoolTransaction :=
  match lookupActive p.activeTransactionConnections transactionId with
  | none => (true, p)
  | some c =>
    let p1 := { p with activeTransactionConnections :=
                  eraseActive p.activeTransactionConnections transactionId }
    let alreadyClosed := p1.closedConnections.contains c
    let p2 :=
      if alreadyClosed then p1
      else if closeOk then { p1 with closedConnections := c :: p1.closedConnections }
      else p1
    let p3 :=
      if p2.availableConnections.length < p2.maxTransactionConnections then
        if createOk then
          { p2 with availableConnections :=
                      p2.availableConnections ++ [p2.nextConnectionId],
                    nextConnectionId := p2.nextConnectionId + 1 }
        else p2
      else p2
    (alreadyClosed || closeOk, p3)

/-- Rows from src/rows.go lines 15-19: the decoded result rows, the cursor
index, and the deferred error. -/
structure Rows where
  cols : List Row
  curIndex : Nat
  err : Option String
deriving DecidableEq

/-- Rows.Next from src/rows.go lines 50-52: compares the cursor index with
the number of rows and mutates nothing; the second component is the receiver
after the call, returned to make the absence of mutation a stated fact. -/
def Rows.Next (rs : Rows) : Bool × Rows :=
  (decide (rs.curIndex < rs.cols.length), rs)

/-- assignRowValue from src/rows.go lines 129-131: always returns nil. -/
def assignRowValue (value : SqlValue) : Option String :=
  none

/-- The column loop of Rows.Scan (src/rows.go lines 117-124): walk the row's
entries, indexing dest positionally; none models the index-out-of-range
panic when dest is shorter than the row, some (some e) the error return from
assignRowValue, some none successful completion of the loop. -/
def scanColumns : Row → List Unit → Option (Option String)
  | [], _ => some none
  | _ :: _, [] => none
  | kv :: rest, _ :: ds =>
    match assignRowValue kv.2 with
    | some e => some (some e)
    | none => scanColumns rest ds

/-- Rows.Scan from src/rows.go lines 114-127: reads cols at the cursor index
unconditionally (none models the index-out-of-range panic when the cursor is
past the end), runs the column loop, and on success advances the cursor by
one. -/
def Rows.Scan (rs : Rows) (dest : List Unit) : Option (Except String Rows) :=
  match rs.cols.get? rs.curIndex with
  | none => none
  | some row =>
    match scanColumns row dest with
    | none => none
    | some (some e) => some (Except.error e)
    | some none => some (Except.ok { rs with curIndex := rs.curIndex + 1 })

/-- A configuration whose keepalive interval (30) and max lifetime (3600)
differ, used to exhibit which value connect actually passes to the worker in
the max-lifetime argument position. -/
def cfgC8 : Config :=
  { host := "h", port := "5000", database := "db", username := "u",
    password := "p", minConnections := 1, maxConnections := 10,
    connectionTimeout := 30, idleTimeout := 300, keepaliveTime := 30,
    maxLifetime := 3600, transactionConnections := 2, logs := false,
    tdsLink := "/opt/TDSLink.jar", tdsProperties := "", timeout := 0 }

/-- A configuration pointing at a properties file, used to exhibit which
launch mode connect selects depending on whether that file exists. -/
def cfgC9 : Config :=
  { host := "h", port := "5000", database := "db", username := "u",
    password := "p", minConnections := 1, maxConnections := 10,
    connectionTimeout := 30, idleTimeout := 300, keepaliveTime := 30,
    maxLifetime := 3600, transactionConnections := 2, logs := false,
    tdsLink := "/opt/TDSLink.jar", tdsProperties := "/etc/tds.properties",
    timeout := 0 }

theorem lookupActive_eq_none (l : List (Nat × Nat)) (tid : Nat)
    (h : tid ∉ l.map Prod.fst) : lookupActive l tid = none := by
  induction l with
  | nil => rfl
  | cons q rest ih =>
    simp only [List.map_cons, List.mem_cons] at h
    push_neg at h
    have hq : ¬ q.1 = tid := fun he => h.1 he.symm
    simp only [lookupActive, if_neg hq]
    exact ih h.2

theorem lookupActive_eraseActive (l : List (Nat × Nat)) (tid : Nat)
    (h : (l.map Prod.fst).Nodup) :
    lookupActive (eraseActive l tid) tid = none := by
  induction l with
  | nil => rfl
  | cons q rest ih =>
    simp only [List.map_cons, List.nodup_cons] at h
    by_cases hq : q.1 = tid
    · simp only [eraseActive, if_pos hq]
      exact lookupActive_eq_none rest tid (hq ▸ h.1)
    · simp only [eraseActive, if_neg hq, lookupActive, if_neg hq]
      exact ih h.2

theorem scanColumns_ok (row : Row) (dest : List Unit)
    (h : row.length ≤ dest.length) : scanColumns row dest = some none := by
  induction row generalizing dest with
  | nil => rfl
  | cons kv rest ih =>
    cases dest with
    | nil => simp at h
    | cons d ds =>
      simp only [List.length_cons, Nat.add_le_add_iff_right] at h
      simpa [scanColumns, assignRowValue] using ih ds h

/-- C4: when diagnostic logging is disabled, connect reads exactly one line
from the worker's stdout before considering the connection live (the outcome
depends only on the first line, it fails when the stream closes before a
line arrives, and succeeds exactly when that line carries the
startup-success prefix); when logging is enabled connect performs no such
read and succeeds once the process starts. -/
theorem C4_handshake :
    (∀ (s : SybaseState) (lines : List String), s.connected = false →
        connect s true true lines = Except.ok { s with connected := true }) ∧
    (∀ s : SybaseState, s.connected = false →
        connect s true false [] = Except.error "failed to read connection status") ∧
    (∀ (s : SybaseState) (l : String) (r r' : List String), s.connected = false →
        connect s true false (l :: r) = connect s true false (l :: r')) ∧
    (∀ (s : SybaseState) (l : String) (r : List String), s.connected = false →
        (connect s true false (l :: r) = Except.ok { s with connected := true } ↔
          goHasPrefix l "JAVALOG: Connection created" = true)) := by
  refine ⟨?_, ?_, ?_, ?_⟩
  · intro s lines h
    simp [connect, connectHandshake, h]
  · intro s h
    simp [connect, connectHandshake, h]
  · intro s l r r' h
    cases hpre : goHasPrefix l "JAVALOG: Connection created" <;>
      simp [connect, connectHandshake, h, hpre]
  · intro s l r h
    cases hpre : goHasPrefix l "JAVALOG: Connection created" <;>
      simp [connect, connectHandshake, h, hpre]

/-- Witness for C4 at concrete inputs. -/
theorem C4_handshake_witness :
    connect ⟨false, 0, []⟩ true true [] = Except.ok ⟨true, 0, []⟩ ∧
    connect ⟨false, 0, []⟩ true false [] =
      Except.error "failed to read connection status" ∧
    (connect ⟨false, 0, []⟩ true false ["JAVALOG: Connection created in 5ms"] =
        Except.ok ⟨true, 0, []⟩ ↔
      goHasPrefix "JAVALOG: Connection created in 5ms"
          "JAVALOG: Connection created" = true) :=
  ⟨C4_handshake.1 ⟨false, 0, []⟩ [] rfl,
   C4_handshake.2.1 ⟨false, 0, []⟩ rfl,
   C4_handshake.2.2.2 ⟨false, 0, []⟩ "JAVALOG: Connection created in 5ms" [] rfl⟩

/-- C7: getConnection is idempotent within a transaction: when a call for
tid returned connection c and state p2, an immediately following call for
the same tid returns the same connection and leaves the pool state
unchanged, whatever the outcome oracle of the second call's connection
creation would be. -/
theorem C7_getConnection_idempotent (p p2 : ConnectionPoolTransaction)
    (tid c : Nat) (ok1 ok2 : Bool)
    (h : getConnection p tid ok1 = (some c, p2)) :
    getConnection p2 tid ok2 = (some c, p2) := by
  unfold getConnection at h ⊢
  cases hl : lookupActive p.activeTransactionConnections tid with
  | some c0 =>
    rw [hl] at h
    injection h with h1 h2
    injection h1 with h1
    subst h1
    subst h2
    rw [hl]
  | none =>
    rw [hl] at h
    cases hav : p.availableConnections with
    | cons c0 rest =>
      rw [hav] at h
      injection h with h1 h2
      injection h1 with h1
      subst h1
      subst h2
      simp [lookupActive]
    | nil =>
      rw [hav] at h
      cases ok1 with
      | false => simp at h
      | true =>
        simp only [if_pos rfl] at h
        injection h with h1 h2
        injection h1 with h1
        subst h1
        subst h2
        simp [lookupActive]

/-- Witness for C7: the call that created connection 0 for transaction 5 is
followed by a second call for 5 which returns the same connection and the
unchanged state. -/
theorem C7_getConnection_idempotent_witness :
    getConnection ⟨[], [(5, 0)], 2, [], 1⟩ 5 true =
      (some 0, ⟨[], [(5, 0)], 2, [], 1⟩) :=
  C7_getConnection_idempotent ⟨[], [], 2, [], 0⟩ ⟨[], [(5, 0)], 2, [], 1⟩ 5 0
    true true (by decide)

/-- C10: Next leaves the receiver unchanged and answers exactly whether the
cursor is below the number of rows; Scan reads the row at the cursor (an
access in bounds exactly when Next answered true), on success advances the
cursor by one, and when Next answered false the unconditional row access
indexes past the end of the slice (the modelled panic). -/
theorem C10_rows_next_scan (rs : Rows) (dest : List Unit) :
    ((rs.Next).1 = true ↔ rs.curIndex < rs.cols.length) ∧
    (rs.Next).2 = rs ∧
    (∀ row, rs.cols.get? rs.curIndex = some row → row.length ≤ dest.length →
        rs.Scan dest = some (Except.ok { rs with curIndex := rs.curIndex + 1 })) ∧
    ((rs.Next).1 = false → rs.Scan dest = none) := by
  refine ⟨?_, rfl, ?_, ?_⟩
  · simp [Rows.Next]
  · intro row hget hlen
    rw [List.get?_eq_getElem?] at hget
    simp [Rows.Scan, hget, scanColumns_ok row dest hlen]
  · intro h
    have hn : ¬ rs.curIndex < rs.cols.length := by
      simpa [Rows.Next] using h
    have hnone : rs.cols.get? rs.curIndex = none :=
      List.get?_eq_none.mpr (Nat.le_of_not_lt hn)
    rw [List.get?_eq_getElem?] at hnone
    simp [Rows.Scan, hnone]

/-- Witness for C10: scanning the single row of a one-row result from cursor
zero succeeds and moves the cursor to one. -/
theorem C10_rows_next_scan_witness :
    (⟨[[("a", SqlValue.num 1)]], 0, none⟩ : Rows).cols.get? 0 =
      some [("a", SqlValue.num 1)] ∧
    (⟨[[("a", SqlValue.num 1)]], 0, none⟩ : Rows).Scan [()] =
      some (Except.ok ⟨[[("a", SqlValue.num 1)]], 1, none⟩) :=
  ⟨rfl,
   (C10_rows_next_scan ⟨[[("a", SqlValue.num 1)]], 0, none⟩ [()]).2.2.1
     [("a", SqlValue.num 1)] rfl (by decide)⟩

/-- C1 counterexample: at teardown of a live bridge with one pending waiter
(msgId 1, channel still empty), the waiter table is cleared and the channel
is closed, so the caller unblocks -- but the receive then yields the Go zero
response, and the post-receive processing of Raw turns it into a successful
empty RawResponse, not a Disconnected-type error. This refutes the claim
that every still-pending Raw call returns a Disconnected error rather than
a successful empty result. -/
theorem C1_counterexample :
    disconnect ⟨true, 1, [(1, ChanState.empty)]⟩ = ⟨false, 1, []⟩ ∧
    disconnectEvents ⟨true, 1, [(1, ChanState.empty)]⟩ =
      [(1, ChanEvent.closedCh)] ∧
    rawFinish (rawAwait (closeChan ChanState.empty)) =
      Except.ok { results := [] } := by
  refine ⟨rfl, rfl, rfl⟩

/-- C1 amended: tearing down a live bridge clears the connected flag, empties
the waiter table and closes every pending waiter's channel, so no caller is
left hanging; a waiter whose channel was still empty resolves to a
successful empty result (not an error), and a waiter whose channel already
held a response drains and processes that response normally. -/
theorem C1_teardown_releases_waiters (s : SybaseState) (h : s.connected = true) :
    (disconnect s).connected = false ∧
    (disconnect s).currentQueries = [] ∧
    (∀ q, q ∈ s.currentQueries → (q.1, closeChan q.2) ∈ disconnectEvents s) ∧
    rawFinish (rawAwait (closeChan ChanState.empty)) =
      Except.ok { results := [] } ∧
    (∀ r : QueryResponse, rawAwait (closeChan (ChanState.holding r)) = r) := by
  refine ⟨?_, ?_, ?_, rfl, fun r => rfl⟩
  · simp [disconnect, h]
  · simp [disconnect, h]
  · intro q hq
    simp only [disconnectEvents, h]
    simp only [Bool.true_eq_false, if_false]
    exact List.mem_map_of_mem _ hq

/-- Witness for C1 amended at a concrete live state with two pending
waiters. -/
theorem C1_teardown_releases_waiters_witness :
    (disconnect ⟨true, 2, [(1, ChanState.empty),
        (2, ChanState.holding ⟨2, [], "x"⟩)]⟩).connected = false ∧
    (disconnect ⟨true, 2, [(1, ChanState.empty),
        (2, ChanState.holding ⟨2, [], "x"⟩)]⟩).currentQueries = [] :=
  ⟨(C1_teardown_releases_waiters
      ⟨true, 2, [(1, ChanState.empty), (2, ChanState.holding ⟨2, [], "x"⟩)]⟩ rfl).1,
   (C1_teardown_releases_waiters
      ⟨true, 2, [(1, ChanState.empty), (2, ChanState.holding ⟨2, [], "x"⟩)]⟩ rfl).2.1⟩

/-- C2 counterexample: the receive in Raw is a bare channel receive, so a
request whose channel sees no event is still unresolved at observation time
1000000 whatever the caller's timeout; and with the only event (a teardown
close) at time 50, a caller whose timeout expired at 10 is still blocked at
its deadline and resolves only at time 50 -- with a successful empty result.
This refutes the claim that every Raw call resolves within the
caller-specified timeout. -/
theorem C2_counterexample :
    rawOutcomeBy [] 1000000 = none ∧
    rawOutcomeBy [(50, ChanEvent.closedCh)] 10 = none ∧
    rawOutcomeBy [(50, ChanEvent.closedCh)] 50 =
      some (Except.ok { results := [] }) := by
  refine ⟨rfl, rfl, rfl⟩

/-- C2 amended: Raw applies no per-request timeout. The call resolves
exactly at the first event on its channel -- it stays blocked forever when
no event arrives, stays blocked at any deadline before the first event
(even one past an expired caller timeout), and resolves at the first event
whatever that event is: a teardown close yields the successful empty
result, and a delivered response with empty results and non-empty error
text yields that error. The Timeout field of Config is never read by the
source. -/
theorem C2_raw_no_timeout :
    (∀ deadline, rawOutcomeBy [] deadline = none) ∧
    (∀ (e : Nat × ChanEvent) (rest : List (Nat × ChanEvent)) (deadline : Nat),
        deadline < e.1 → rawOutcomeBy (e :: rest) deadline = none) ∧
    (∀ (e : Nat × ChanEvent) (rest : List (Nat × ChanEvent)) (deadline : Nat),
        e.1 ≤ deadline →
        rawOutcomeBy (e :: rest) deadline = some (rawFinish (rawAwait e.2))) ∧
    (∀ (rest : List (Nat × ChanEvent)) (deadline t : Nat), t ≤ deadline →
        rawOutcomeBy ((t, ChanEvent.closedCh) :: rest) deadline =
          some (Except.ok { results := [] })) ∧
    (∀ r : QueryResponse, r.result = [] → r.error ≠ "" →
        rawFinish (rawAwait (ChanEvent.delivered r)) = Except.error r.error) := by
  refine ⟨fun d => rfl, ?_, ?_, ?_, ?_⟩
  · intro e rest d hd
    simp only [rawOutcomeBy]
    rw [if_neg (by omega)]
  · intro e rest d hd
    simp only [rawOutcomeBy]
    rw [if_pos hd]
  · intro rest d t ht
    simp only [rawOutcomeBy]
    rw [if_pos ht]
    rfl
  · intro r h1 h2
    simp [rawFinish, rawAwait, h1, h2]

/-- Witness for C2 amended at concrete traces. -/
theorem C2_raw_no_timeout_witness :
    rawOutcomeBy [(50, ChanEvent.closedCh)] 9 = none ∧
    rawOutcomeBy [(50, ChanEvent.delivered ⟨7, [], "boom"⟩)] 60 =
      some (Except.error "boom") := by
  constructor
  · exact C2_raw_no_timeout.2.1 (50, ChanEvent.closedCh) [] 9 (by decide)
  · rw [C2_raw_no_timeout.2.2.1 (50, ChanEvent.delivered ⟨7, [], "boom"⟩) [] 60
      (by decide)]
    rw [C2_raw_no_timeout.2.2.2.2 (⟨7, [], "boom"⟩ : QueryResponse) rfl
      (by decide)]

/-- C3 counterexample: the same recognized-prefix stdout line is classified
before JSON decoding only when diagnostic logging is enabled; with logging
disabled it falls through to the JSON decoder (here the behaviour of
json.Unmarshal on this line, which is not valid JSON, is the stub returning
none) and is handled as a parse failure. This refutes the claim that the
prefix classification happens regardless of whether logging is enabled. -/
theorem C3_counterexample :
    handleResponsesLine true (fun l => none) "JAVALOG: pool ready" [] =
      (RouteAction.diagLogged, []) ∧
    handleResponsesLine false (fun l => none) "JAVALOG: pool ready" [] =
      (RouteAction.parseFailedDropped, []) := by
  refine ⟨rfl, rfl⟩

/-- C3 amended: the prefix check runs only when diagnostic logging is
enabled. With logging on, a line with a recognized prefix is logged and
never JSON-decoded, leaving the waiter table unchanged; with logging off,
every line goes to the JSON decoder, and any line that fails to decode --
as recognized-prefix diagnostic lines always do, not being valid JSON -- is
logged and dropped without resolving any waiter; the same holds with
logging on for an unprefixed line that fails to decode. -/
theorem C3_route_classification (decode : String → Option QueryResponse)
    (line : String) (qs : List (Nat × ChanState)) :
    ((goHasPrefix line "JAVALOG:" || goHasPrefix line "JAVAERROR:") = true →
        handleResponsesLine true decode line qs = (RouteAction.diagLogged, qs)) ∧
    (decode line = none →
        handleResponsesLine false decode line qs =
          (RouteAction.parseFailedDropped, qs)) ∧
    ((goHasPrefix line "JAVALOG:" || goHasPrefix line "JAVAERROR:") = false →
        decode line = none →
        handleResponsesLine true decode line qs =
          (RouteAction.parseFailedDropped, qs)) := by
  refine ⟨?_, ?_, ?_⟩
  · intro hp
    simp [handleResponsesLine, hp]
  · intro hd
    simp [handleResponsesLine, hd]
  · intro hp hd
    simp [handleResponsesLine, hp, hd]

/-- Witness for C3 amended at concrete lines and a one-entry waiter table. -/
theorem C3_route_classification_witness :
    handleResponsesLine true (fun l => none) "JAVAERROR: pool down"
        [(3, ChanState.empty)] =
      (RouteAction.diagLogged, [(3, ChanState.empty)]) ∧
    handleResponsesLine false (fun l => none) "not json"
        [(3, ChanState.empty)] =
      (RouteAction.parseFailedDropped, [(3, ChanState.empty)]) :=
  ⟨(C3_route_classification (fun l => none) "JAVAERROR: pool down"
      [(3, ChanState.empty)]).1 (by decide),
   (C3_route_classification (fun l => none) "not json"
      [(3, ChanState.empty)]).2.1 rfl⟩

/-- C5 counterexample: an info-log-prefixed line on the error stream -- one
of the spec's three diagnostic categories, and one the worker does emit on
stderr, since its logger writes JAVALOG lines to standard error -- is not
recognized by either revision of handleErrors and triggers a full
disconnect; the gosybase revision additionally fails to recognize the
exception prefix. This refutes the claim that all three diagnostic
categories are surfaced as logs and not treated as fatal. -/
theorem C5_counterexample :
    handleErrorsLine "JAVALOG: Connected to h:5000/db" =
      ErrResult.fatalDisconnect ∧
    handleErrorsLineLegacy "JAVALOG: Connected to h:5000/db" =
      ErrResult.fatalDisconnect ∧
    handleErrorsLineLegacy "JAVAEXCEPTION:(1) java.sql.SQLException" =
      ErrResult.fatalDisconnect := by
  refine ⟨rfl, rfl, rfl⟩

/-- C5 amended: on the error stream only the error-log (JAVAERROR:) and
exception (JAVAEXCEPTION:) prefixes are recognized and surfaced as
non-fatal logs (the gosybase revision recognizes only JAVAERROR:); any
other line -- including info-log JAVALOG: lines -- triggers a full bridge
disconnect, which clears the connected flag and empties the waiter table of
a live bridge. -/
theorem C5_error_stream_classification (line : String) (s : SybaseState) :
    (handleErrorsLine line = ErrResult.logged ↔
        (goHasPrefix line "JAVAERROR:" || goHasPrefix line "JAVAEXCEPTION:") =
          true) ∧
    (handleErrorsLineLegacy line = ErrResult.logged ↔
        goHasPrefix line "JAVAERROR:" = true) ∧
    ((goHasPrefix line "JAVAERROR:" || goHasPrefix line "JAVAEXCEPTION:") =
        false → handleErrorsLine line = ErrResult.fatalDisconnect) ∧
    (disconnect s).connected = false ∧
    (s.connected = true → (disconnect s).currentQueries = []) := by
  refine ⟨?_, ?_, ?_, ?_, ?_⟩
  · cases hb : (goHasPrefix line "JAVAERROR:" || goHasPrefix line "JAVAEXCEPTION:") <;>
      simp [handleErrorsLine, hb]
  · cases hb : goHasPrefix line "JAVAERROR:" <;>
      simp [handleErrorsLineLegacy, hb]
  · intro hb
    simp [handleErrorsLine, hb]
  · cases hc : s.connected <;> simp [disconnect, hc]
  · intro hc
    simp [disconnect, hc]

/-- Witness for C5 amended at a concrete recognized line and a concrete live
state. -/
theorem C5_error_stream_classification_witness :
    (handleErrorsLine "JAVAERROR: pool down" = ErrResult.logged ↔
        (goHasPrefix "JAVAERROR: pool down" "JAVAERROR:" ||
          goHasPrefix "JAVAERROR: pool down" "JAVAEXCEPTION:") = true) ∧
    (disconnect ⟨true, 3, [(2, ChanState.empty)]⟩).currentQueries = [] :=
  ⟨(C5_error_stream_classification "JAVAERROR: pool down"
      ⟨true, 3, [(2, ChanState.empty)]⟩).1,
   (C5_error_stream_classification "JAVAERROR: pool down"
      ⟨true, 3, [(2, ChanState.empty)]⟩).2.2.2.2 rfl⟩

/-- C8: the worker launch arguments evaluated at a configuration whose
keepalive interval (30) differs from its max lifetime (3600). Argument 12,
the max-connection-lifetime slot documented by the worker's own entry point
and by the Sybase struct's field comments, carries the string of
KeepaliveTime (30), not of MaxLifetime (3600): newConnectionInstance
assigns config.KeepaliveTime to the maxLifetime field (src/internal/sybase.go
line 35) and Config.MaxLifetime is never read anywhere. -/
theorem C8_maxLifetime_arg :
    cfgC8.keepaliveTime = 30 ∧ cfgC8.maxLifetime = 3600 ∧
    (newConnectionInstance cfgC8 none).map
        (fun s => connectWorkerArgs s (fun p => false)) =
      Except.ok ["h", "5000", "db", "u", "p", "false", "1", "10", "30",
                 "300", "30", "30", "2"] := by
  refine ⟨rfl, rfl, rfl⟩

/-- C9: which launch mode connect selects, evaluated with its properties
path set to a file that exists (oracle true on that path) and to one that
does not. checkFileExistence returns os.IsNotExist of the stat error, i.e.
the negation of existence, so connect launches the worker with the ordered
scalar list exactly when the properties file exists, and with the single
properties-path argument exactly when it does not -- the inverse of both
the claim and the evident intent of the function's name, its call-site
comment, and the worker entry point that exits when the path is invalid. -/
theorem C9_properties_mode_inverted :
    checkFileExistence (fun p => decide (p = "/etc/tds.properties"))
      "/etc/tds.properties" = false ∧
    (newConnectionInstance cfgC9 none).map
        (fun s => connectWorkerArgs s
          (fun p => decide (p = "/etc/tds.properties"))) =
      Except.ok ["h", "5000", "db", "u", "p", "false", "1", "10", "30",
                 "300", "30", "30", "2"] ∧
    checkFileExistence (fun p => false) "/etc/tds.properties" = true ∧
    (newConnectionInstance cfgC9 none).map
        (fun s => connectWorkerArgs s (fun p => false)) =
      Except.ok ["/etc/tds.properties"] := by
  refine ⟨rfl, rfl, rfl, rfl⟩

theorem releaseConnection_spec (p : ConnectionPoolTransaction) (tid c : Nat)
    (createOk : Bool)
    (hmap : lookupActive p.activeTransactionConnections tid = some c) :
    releaseConnection p tid true createOk =
      (true,
       { availableConnections :=
           if p.availableConnections.length < p.maxTransactionConnections ∧
               createOk = true then
             p.availableConnections ++ [p.nextConnectionId]
           else p.availableConnections,
         activeTransactionConnections :=
           eraseActive p.activeTransactionConnections tid,
         maxTransactionConnections := p.maxTransactionConnections,
         closedConnections :=
           if p.closedConnections.contains c then p.closedConnections
           else c :: p.closedConnections,
         nextConnectionId :=
           if p.availableConnections.length < p.maxTransactionConnections ∧
               createOk = true then
             p.nextConnectionId + 1
           else p.nextConnectionId }) := by
  simp only [releaseConnection, hmap]
  by_cases hm : c ∈ p.closedConnections <;>
    by_cases h2 :
        p.availableConnections.length < p.maxTransactionConnections <;>
      cases createOk <;>
        simp [hm, h2]

theorem getConnection_fresh (q : ConnectionPoolTransaction) (tid c : Nat)
    (ok : Bool)
    (hnone : lookupActive q.activeTransactionConnections tid = none)
    (hav : c ∉ q.availableConnections) (hlt : c < q.nextConnectionId) :
    ∀ (c2 : Nat) (q2 : ConnectionPoolTransaction),
      getConnection q tid ok = (some c2, q2) → c2 ≠ c := by
  intro c2 q2 hget
  unfold getConnection at hget
  rw [hnone] at hget
  cases hA : q.availableConnections with
  | cons a rest =>
    rw [hA] at hget
    injection hget with h1 h2
    injection h1 with h1
    subst h1
    intro hEq
    subst hEq
    exact hav (by rw [hA]; exact List.mem_cons_self _ _)
  | nil =>
    rw [hA] at hget
    cases ok with
    | false => simp at hget
    | true =>
      simp only [if_pos rfl] at hget
      injection hget with h1 h2
      injection h1 with h1
      omega

/-- C6: postcondition of releaseConnection on a mapped transaction id whose
close succeeds: the call returns without failing, the id's mapping entry is
gone, the mapped connection is closed, and -- when creating the replacement
succeeds -- exactly one fresh spare is appended if and only if the spare
list is below the configured pool size; when the spare list is full or the
replacement creation fails the spare list is unchanged and the release
still does not fail; and a subsequent getConnection for the same id can
only return a connection different from the released one, where the
disjointness hypotheses are the spec's pool invariants: the released
connection is not also in the spare list, and every handed-out identifier
is below the freshness counter. -/
theorem C6_releaseConnection_post (p : ConnectionPoolTransaction) (tid c : Nat)
    (createOk : Bool)
    (hmap : lookupActive p.activeTransactionConnections tid = some c)
    (hnodup : (p.activeTransactionConnections.map Prod.fst).Nodup)
    (hav : c ∉ p.availableConnections)
    (hlt : c < p.nextConnectionId) :
    (releaseConnection p tid true createOk).1 = true ∧
    lookupActive
        (releaseConnection p tid true createOk).2.activeTransactionConnections
        tid = none ∧
    c ∈ (releaseConnection p tid true createOk).2.closedConnections ∧
    (createOk = true →
      ((releaseConnection p tid true createOk).2.availableConnections.length =
          p.availableConnections.length + 1 ↔
        p.availableConnections.length < p.maxTransactionConnections)) ∧
    ((¬ p.availableConnections.length < p.maxTransactionConnections ∨
        createOk = false) →
      (releaseConnection p tid true createOk).2.availableConnections =
        p.availableConnections) ∧
    (∀ (ok : Bool) (c2 : Nat) (q2 : ConnectionPoolTransaction),
        getConnection (releaseConnection p tid true createOk).2 tid ok =
          (some c2, q2) → c2 ≠ c) := by
  rw [releaseConnection_spec p tid c createOk hmap]
  refine ⟨rfl, ?_, ?_, ?_, ?_, ?_⟩
  · exact lookupActive_eraseActive _ _ hnodup
  · show c ∈ (if p.closedConnections.contains c then p.closedConnections
      else c :: p.closedConnections)
    by_cases hm : c ∈ p.closedConnections
    · simp [hm]
    · simp [hm]
  · intro hok
    subst hok
    show ((if p.availableConnections.length < p.maxTransactionConnections ∧
        true = true then p.availableConnections ++ [p.nextConnectionId]
        else p.availableConnections).length =
          p.availableConnections.length + 1 ↔
      p.availableConnections.length < p.maxTransactionConnections)
    by_cases h2 : p.availableConnections.length < p.maxTransactionConnections
    · rw [if_pos ⟨h2, rfl⟩]
      simp [List.length_append, h2]
    · rw [if_neg (fun hc => h2 hc.1)]
      constructor
      · intro hlen
        omega
      · intro hc
        exact absurd hc h2
  · intro h
    rcases h with h2 | hok
    · show (if p.availableConnections.length < p.maxTransactionConnections ∧
          createOk = true then p.availableConnections ++ [p.nextConnectionId]
          else p.availableConnections) = p.availableConnections
      rw [if_neg (fun hc => h2 hc.1)]
    · subst hok
      show (if p.availableConnections.length < p.maxTransactionConnections ∧
          false = true then p.availableConnections ++ [p.nextConnectionId]
          else p.availableConnections) = p.availableConnections
      rw [if_neg (fun hc => Bool.false_ne_true hc.2)]
  · intro ok c2 q2 hget
    refine getConnection_fresh _ tid c ok ?_ ?_ ?_ c2 q2 hget
    · exact lookupActive_eraseActive _ _ hnodup
    · show c ∉ (if p.availableConnections.length <
          p.maxTransactionConnections ∧ createOk = true then
          p.availableConnections ++ [p.nextConnectionId]
          else p.availableConnections)
      by_cases hc : p.availableConnections.length <
          p.maxTransactionConnections ∧ createOk = true
      · rw [if_pos hc]
        intro hmem
        rcases List.mem_append.mp hmem with hin | hin
        · exact hav hin
        · rw [List.mem_singleton] at hin
          omega
      · rw [if_neg hc]
        exact hav
    · show c < (if p.availableConnections.length <
          p.maxTransactionConnections ∧ createOk = true then
          p.nextConnectionId + 1 else p.nextConnectionId)
      by_cases hc : p.availableConnections.length <
          p.maxTransactionConnections ∧ createOk = true
      · rw [if_pos hc]
        omega
      · rw [if_neg hc]
        exact hlt

/-- Witness for C6 at a concrete pool: transaction 7 holds connection 0, one
spare (connection 1) exists below the configured size 2, and the release
succeeds, unmaps 7, closes 0 and appends the fresh spare 2. -/
theorem C6_releaseConnection_post_witness :
    (lookupActive ([(7, 0)] : List (Nat × Nat)) 7 = some 0 ∧
     (([(7, 0)] : List (Nat × Nat)).map Prod.fst).Nodup ∧
     (0 : Nat) ∉ ([1] : List Nat) ∧ (0 : Nat) < 2) ∧
    lookupActive (releaseConnection ⟨[1], [(7, 0)], 2, [], 2⟩ 7 true
        true).2.activeTransactionConnections 7 = none ∧
    (releaseConnection ⟨[1], [(7, 0)], 2, [], 2⟩ 7 true
        true).2.availableConnections = [1, 2] ∧
    0 ∈ (releaseConnection ⟨[1], [(7, 0)], 2, [], 2⟩ 7 true
        true).2.closedConnections :=
  ⟨by decide,
   (C6_releaseConnection_post ⟨[1], [(7, 0)], 2, [], 2⟩ 7 0 true (by decide)
      (by decide) (by decide) (by decide)).2.1,
   by decide,
   (C6_releaseConnection_post ⟨[1], [(7, 0)], 2, [], 2⟩ 7 0 true (by decide)
      (by decide) (by decide) (by decide)).2.2.1⟩
